import Mathlib

/-!
Verification of the Dev-RPG gateway against its specification.

This file gives a shallow embedding of the core of the repository:
the tolerant JSON extraction used by the MCP agents
(`src/mcp-agents/architect_mcp/ollama_utils.py` and `llm_client.py`),
the gateway's score composition, leveling, badge and persistence logic
(`src/backend/main.py`), and the degraded-response branch of the
code-quality agent (`src/mcp-agents/code_quality_mcp/main.py`).
Python machine arithmetic is modelled with `Nat`, `Int` and `Rat`
(the float weights 0.3/0.25/0.2/0.25 are modelled by the exact rationals
they denote; all integer results proved here are far from any float
rounding boundary).
-/

namespace DevRPG

/-- JSON values as produced by Python's `json.loads`.  Numbers are modelled
as exact rationals (Python would produce `int` or `float`; every number in
the claims is an integer, far below any float precision boundary). -/
inductive Json where
  | null : Json
  | bool (b : Bool) : Json
  | num (q : ℚ) : Json
  | str (s : String) : Json
  | arr (xs : List Json) : Json
  | obj (kvs : List (String × Json)) : Json

/-- JSON whitespace characters, as accepted between tokens by `json.loads`. -/
def jsonWs (c : Char) : Bool :=
  c == ' ' || c == '\t' || c == '\n' || c == '\r'

/-- Skip JSON whitespace. -/
def skipWs (cs : List Char) : List Char :=
  cs.dropWhile jsonWs

/-- Whitespace stripped by Python's `str.strip()` (ASCII subset; the inputs
in this development are ASCII). -/
def pySpace (c : Char) : Bool :=
  c == ' ' || c == '\t' || c == '\n' || c == '\r' ||
  c == Char.ofNat 11 || c == Char.ofNat 12

/-- Python `str.strip()` on a character list. -/
def pyStripChars (cs : List Char) : List Char :=
  ((cs.dropWhile pySpace).reverse.dropWhile pySpace).reverse

/-- The opening-brace character (written by code point to keep the
development plain ASCII). -/
def lbrace : Char := Char.ofNat 123

/-- The closing-brace character. -/
def rbrace : Char := Char.ofNat 125

/-- Decode one escape character after a backslash in a JSON string
(`\u` escapes are handled separately). -/
def escChar : Char → Option Char
  | '"' => some '"'
  | '\\' => some '\\'
  | '/' => some '/'
  | 'b' => some (Char.ofNat 8)
  | 'f' => some (Char.ofNat 12)
  | 'n' => some '\n'
  | 'r' => some '\r'
  | 't' => some '\t'
  | _ => none

/-- Hex digit value (code points 48-57 are the digits, 97-102 and 65-70
the lower- and upper-case letters). -/
def hexVal (c : Char) : Option ℕ :=
  let n := c.toNat
  if 48 ≤ n ∧ n ≤ 57 then some (n - 48)
  else if 97 ≤ n ∧ n ≤ 102 then some (n - 87)
  else if 65 ≤ n ∧ n ≤ 70 then some (n - 55)
  else none

/-- Parse the body of a JSON string after the opening quote, returning the
decoded characters and the remaining input after the closing quote.
Faithful to `json.loads` in strict mode: raw control characters are
rejected; `\uXXXX` decodes to the corresponding code point (surrogate-pair
recombination is not modelled; no claim input uses it). -/
def strBody : List Char → Option (List Char × List Char)
  | [] => none
  | c :: rest =>
    if c == '"' then some ([], rest)
    else if c == '\\' then
      match rest with
      | [] => none
      | e :: rest2 =>
        if e == 'u' then
          match rest2 with
          | h1 :: h2 :: h3 :: h4 :: rest3 =>
            match hexVal h1, hexVal h2, hexVal h3, hexVal h4 with
            | some v1, some v2, some v3, some v4 =>
              match strBody rest3 with
              | some (body, rem) =>
                some (Char.ofNat (((v1 * 16 + v2) * 16 + v3) * 16 + v4) :: body, rem)
              | none => none
            | _, _, _, _ => none
          | _ => none
        else
          match escChar e with
          | some d =>
            match strBody rest2 with
            | some (body, rem) => some (d :: body, rem)
            | none => none
          | none => none
    else if c.toNat < 32 then none
    else
      match strBody rest with
      | some (body, rem) => some (c :: body, rem)
      | none => none

/-- Take a maximal run of decimal digits. -/
def takeDigits (cs : List Char) : List Char × List Char :=
  (cs.takeWhile Char.isDigit, cs.dropWhile Char.isDigit)

/-- Numeric value of a digit list. -/
def digitsVal (ds : List Char) : ℕ :=
  ds.foldl (fun acc c => acc * 10 + (c.toNat - '0'.toNat)) 0

/-- Parse a JSON number per the JSON grammar (`-?(0|[1-9][0-9]*)` with
optional fraction and exponent), as accepted by `json.loads`.  The special
tokens `NaN`/`Infinity` accepted by Python are not modelled (no claim
involves them). -/
def parseNum (cs : List Char) : Option (Json × List Char) :=
  let (neg, cs1) :=
    match cs with
    | '-' :: rest => (true, rest)
    | _ => (false, cs)
  match takeDigits cs1 with
  | ([], _) => none
  | (d :: ds, rest1) =>
    -- leading-zero rule: the integer part is "0" or starts with 1..9
    if d == '0' && !ds.isEmpty then none
    else
      let intPart : ℕ := digitsVal (d :: ds)
      let fracParse : Option (List Char × List Char) :=
        match rest1 with
        | '.' :: r =>
          match takeDigits r with
          | ([], _) => none   -- a '.' must be followed by at least one digit
          | (fs, r2) => some (fs, r2)
        | _ => some ([], rest1)
      match fracParse with
      | none => none
      | some (fracDigits, rest2) =>
        let (expVal, expNeg, rest3) :=
          match rest2 with
          | e :: r =>
            if e == 'e' || e == 'E' then
              let (esign, r1) :=
                match r with
                | '-' :: rr => (true, rr)
                | '+' :: rr => (false, rr)
                | _ => (false, r)
              match takeDigits r1 with
              | ([], _) => (0, false, rest2)
              | (es, r2) => (digitsVal es, esign, r2)
            else (0, false, rest2)
          | [] => (0, false, rest2)
        -- An integer token yields the integer's exact value (a Python
        -- `int`); a token with a fraction or exponent yields the exact
        -- rational it denotes (Python would round it to the nearest
        -- float; no claim input carries a fractional score).
        let q : ℚ :=
          if fracDigits.isEmpty && expVal == 0 then
            ((if neg then -(intPart : ℤ) else (intPart : ℤ)) : ℚ)
          else
            let base : ℚ :=
              (intPart : ℚ) + (digitsVal fracDigits : ℚ) / ((10 : ℚ) ^ fracDigits.length)
            let scaled : ℚ :=
              if expNeg then base / (10 : ℚ) ^ expVal else base * (10 : ℚ) ^ expVal
            if neg then -scaled else scaled
        some (.num q, rest3)

/-- Parsing mode: a single value, the remaining elements of an array, or
the remaining members of an object (with the accumulated prefix). -/
inductive PMode where
  | value : PMode
  | elems (acc : List Json) : PMode
  | members (acc : List (String × Json)) : PMode

/-- Insert a key/value pair into an object, overwriting an existing key,
as Python dicts do for duplicate keys in a JSON document. -/
def objInsert (kvs : List (String × Json)) (k : String) (v : Json) :
    List (String × Json) :=
  if kvs.any (fun p => p.1 == k) then
    kvs.map (fun p => if p.1 == k then (k, v) else p)
  else kvs ++ [(k, v)]

/-- Recursive JSON parser, fuelled to make the recursion structural (the
fuel passed by `json_loads_chars` always suffices).  Models `json.loads`'s
grammar: leading whitespace is skipped before a value; arrays and objects
allow whitespace around punctuation. -/
def parseP : ℕ → PMode → List Char → Option (Json × List Char)
  | 0, _, _ => none
  | fuel + 1, .value, cs =>
    match skipWs cs with
    | [] => none
    | c :: rest =>
      if c == 'n' then
        match rest with
        | 'u' :: 'l' :: 'l' :: r => some (.null, r)
        | _ => none
      else if c == 't' then
        match rest with
        | 'r' :: 'u' :: 'e' :: r => some (.bool true, r)
        | _ => none
      else if c == 'f' then
        match rest with
        | 'a' :: 'l' :: 's' :: 'e' :: r => some (.bool false, r)
        | _ => none
      else if c == '"' then
        match strBody rest with
        | some (body, rem) => some (.str (String.mk body), rem)
        | none => none
      else if c == lbrace then
        match skipWs rest with
        | d :: r2 =>
          if d == rbrace then some (.obj [], r2)
          else parseP fuel (.members []) (d :: r2)
        | [] => none
      else if c == '[' then
        match skipWs rest with
        | d :: r2 =>
          if d == ']' then some (.arr [], r2)
          else parseP fuel (.elems []) (d :: r2)
        | [] => none
      else parseNum (c :: rest)
  | fuel + 1, .elems acc, cs =>
    match parseP fuel .value cs with
    | none => none
    | some (v, rest) =>
      match skipWs rest with
      | ',' :: r2 => parseP fuel (.elems (acc ++ [v])) r2
      | d :: r2 =>
        if d == ']' then some (.arr (acc ++ [v]), r2) else none
      | [] => none
  | fuel + 1, .members acc, cs =>
    match skipWs cs with
    | c :: rest =>
      if c == '"' then
        match strBody rest with
        | some (keyChars, rem1) =>
          match skipWs rem1 with
          | ':' :: rem2 =>
            match parseP fuel .value rem2 with
            | none => none
            | some (v, rest2) =>
              let acc' := objInsert acc (String.mk keyChars) v
              match skipWs rest2 with
              | ',' :: r3 => parseP fuel (.members acc') r3
              | d :: r3 =>
                if d == rbrace then some (.obj acc', r3) else none
              | [] => none
          | _ => none
        | none => none
      else none
    | [] => none

/-- `json.loads` on a character list: parse one value and require only
whitespace to remain (Python raises "Extra data" otherwise, which every
caller in the source treats as a failed candidate). -/
def json_loads_chars (cs : List Char) : Option Json :=
  match parseP (2 * cs.length + 4) .value cs with
  | some (v, rest) => if skipWs rest = [] then some v else none
  | none => none

/-- `json.loads` on a string. -/
def json_loads (s : String) : Option Json :=
  json_loads_chars s.data

/-!
The tolerant JSON extraction of `ollama_utils.extract_json_from_response`
(identical in `llm_client.py`).  The Python code runs `re.findall` for the
four patterns
  1. a fenced block tagged json,
  2. any fenced block,
  3. the greedy brace span (first opening brace to last closing brace),
  4. the greedy bracket span,
tries `json.loads(match.strip())` on every match in order, and finally
tries `json.loads(response.strip())` on the whole input.  The candidate
lists below reproduce exactly the strings each pattern yields; the
surrounding `\s*` of patterns 1 and 2 only trims whitespace that the
subsequent `.strip()` removes anyway, so capturing the raw text between
the fences is equivalent.
-/

/-- Split a character list at the first occurrence of `pat`, returning the
text before it and the text after it; `none` when `pat` does not occur. -/
def splitAfterFirst (pat : List Char) : List Char → Option (List Char × List Char)
  | [] => if pat.isEmpty then some ([], []) else none
  | c :: rest =>
    if pat.isPrefixOf (c :: rest) then some ([], (c :: rest).drop pat.length)
    else
      match splitAfterFirst pat rest with
      | some (pre, post) => some (c :: pre, post)
      | none => none

/-- All texts between an occurrence of `opener` and the next triple
backtick fence, scanning left to right without overlap, exactly as
`re.findall` does for the fenced-block patterns (fuelled; the fuel passed
by `fencedMatches` always suffices because each found block consumes at
least one character). -/
def fencedMatchesGo (opener fence : List Char) : ℕ → List Char → List (List Char)
  | 0, _ => []
  | fuel + 1, cs =>
    match splitAfterFirst opener cs with
    | none => []
    | some (_, afterOpen) =>
      match splitAfterFirst fence afterOpen with
      | none => []
      | some (content, afterClose) =>
        content :: fencedMatchesGo opener fence fuel afterClose

/-- The triple-backtick fence. -/
def fence3 : List Char := "```".data

/-- Candidates from one fenced-block pattern. -/
def fencedMatches (opener : String) (cs : List Char) : List (List Char) :=
  fencedMatchesGo opener.data fence3 (cs.length + 1) cs

/-- Index of the first occurrence of `c`. -/
def firstIdx (c : Char) (cs : List Char) : Option ℕ :=
  cs.findIdx? (fun d => d == c)

/-- Index of the last occurrence of `c`. -/
def lastIdx (c : Char) (cs : List Char) : Option ℕ :=
  (cs.reverse.findIdx? (fun d => d == c)).map (fun k => cs.length - 1 - k)

/-- The single candidate produced by the greedy span patterns 3 and 4:
`re.findall` on a greedy `open …anything… close` pattern yields exactly
the text from the first opening character to the last closing character
(when the latter lies strictly after the former), and nothing else. -/
def spanMatches (openC closeC : Char) (cs : List Char) : List (List Char) :=
  match firstIdx openC cs, lastIdx closeC cs with
  | some i, some j => if i < j then [(cs.drop i).take (j - i + 1)] else []
  | _, _ => []

/-- The ordered candidate list tried by `extract_json_from_response`:
pattern 1 matches, then pattern 2, then the brace span, then the bracket
span, and finally the whole input (strategy 5); each candidate is stripped
before `json.loads` is attempted on it. -/
def jsonCandidates (s : String) : List (List Char) :=
  fencedMatches "```json" s.data ++ fencedMatches "```" s.data ++
  spanMatches lbrace rbrace s.data ++ spanMatches '[' ']' s.data ++ [s.data]

/-- Try `json.loads(candidate.strip())` on each candidate in order,
returning the first success. -/
def tryCands : List (List Char) → Option Json
  | [] => none
  | c :: cs =>
    match json_loads_chars (pyStripChars c) with
    | some v => some v
    | none => tryCands cs

/-- The sentinel returned when every extraction strategy fails:
`{"error": "Failed to parse LLM response", "raw_response": response[:500]}`
(the raw response truncated to its first 500 characters). -/
def sentinelObj (s : String) : Json :=
  .obj [("error", .str "Failed to parse LLM response"),
        ("raw_response", .str (String.mk (s.data.take 500)))]

/-- `extract_json_from_response` from
`src/mcp-agents/architect_mcp/ollama_utils.py` (lines 61-90): the first
candidate that parses wins; if none parses, the sentinel is returned and
no exception escapes. -/
def extract_json_from_response (s : String) : Json :=
  match tryCands (jsonCandidates s) with
  | some v => v
  | none => sentinelObj s

/-!
Gateway score composition and gamification
(`src/backend/main.py`, `analyze_code`, lines 544-651, and
`calculate_level`, lines 235-247).
-/

/-- Python `int()` on a real value: truncation toward zero. -/
def truncPy (q : ℚ) : ℤ :=
  if 0 ≤ q then ⌊q⌋ else -⌊-q⌋

/-- The weighted score list built by `analyze_code` (lines 544-560): one
entry `(score, weight)` per backend whose response is a truthy dict
containing its score key, in source order, with the fixed weights
0.30 / 0.25 / 0.20 / 0.25.  An argument of `none` models every skipped
case (no response, falsy response, missing score key). -/
def scoreEntries (cq ar el co : Option ℚ) : List (ℚ × ℚ) :=
  (match cq with | some s => [(s, (0.3 : ℚ))] | none => []) ++
  (match ar with | some s => [(s, (0.25 : ℚ))] | none => []) ++
  (match el with | some s => [(s, (0.2 : ℚ))] | none => []) ++
  (match co with | some s => [(s, (0.25 : ℚ))] | none => [])

/-- `overall_score` as computed by `analyze_code` (lines 562-566):
`int(sum(score*weight) / total_weight)` over the present entries, `0`
when none is present.  The Python float weights are modelled by the exact
rationals they denote. -/
def overallScoreCalc (cq ar el co : Option ℚ) : ℤ :=
  let scores := scoreEntries cq ar el co
  if scores.isEmpty then 0
  else truncPy ((scores.map (fun p => p.1 * p.2)).sum /
                (scores.map (fun p => p.2)).sum)

/-- Modelled from the spec claim's words (for comparison with
`overallScoreCalc`): `overall_score = round(Σ score_i·w_i / Σ w_i present)`
with `round` as stated by the claim, `0` when no sub-report is present. -/
def overallScoreSpecRound (cq ar el co : Option ℚ) : ℤ :=
  if cq.isNone ∧ ar.isNone ∧ el.isNone ∧ co.isNone then 0
  else
    let num : ℚ := (cq.map (· * (0.3 : ℚ))).getD 0 + (ar.map (· * (0.25 : ℚ))).getD 0 +
      (el.map (· * (0.2 : ℚ))).getD 0 + (co.map (· * (0.25 : ℚ))).getD 0
    let den : ℚ := (if cq.isSome then (0.3 : ℚ) else 0) + (if ar.isSome then (0.25 : ℚ) else 0) +
      (if el.isSome then (0.2 : ℚ) else 0) + (if co.isSome then (0.25 : ℚ) else 0)
    round (num / den)

/-- The amended spec formula: identical to `overallScoreSpecRound` except
that the final rounding is the truncation Python's `int()` performs. -/
def overallScoreSpecTrunc (cq ar el co : Option ℚ) : ℤ :=
  if cq.isNone ∧ ar.isNone ∧ el.isNone ∧ co.isNone then 0
  else
    let num : ℚ := (cq.map (· * (0.3 : ℚ))).getD 0 + (ar.map (· * (0.25 : ℚ))).getD 0 +
      (el.map (· * (0.2 : ℚ))).getD 0 + (co.map (· * (0.25 : ℚ))).getD 0
    let den : ℚ := (if cq.isSome then (0.3 : ℚ) else 0) + (if ar.isSome then (0.25 : ℚ) else 0) +
      (if el.isSome then (0.2 : ℚ) else 0) + (if co.isSome then (0.25 : ℚ) else 0)
    truncPy (num / den)

/-- Status tier from the overall score (lines 568-576). -/
def statusOf (overall : ℤ) : String :=
  if overall ≥ 85 then "excellent"
  else if overall ≥ 70 then "good"
  else if overall ≥ 50 then "needs_improvement"
  else "critical"

/-- `calculate_level`'s while loop (lines 235-247).  The guard `0 < t`
only encodes termination for Lean: the threshold starts at 100 and
`t * 3 / 2 ≥ t` keeps it positive, so the guard is vacuous on every
reachable state.  `int(xp_for_next * 1.5)` equals `t * 3 / 2` in natural
division exactly (1.5 is a power-of-two-scaled integer, so the float
product is exact until far beyond any reachable threshold). -/
def levelGo (r t l : ℕ) : ℕ :=
  if h : 0 < t ∧ t ≤ r then
    levelGo (r - t) (t * 3 / 2) (l + 1)
  else l
termination_by r
decreasing_by omega

/-- `calculate_level` from `src/backend/main.py` lines 235-247: level 1,
first threshold 100; each level-up subtracts the threshold and multiplies
it by 1.5 (truncated).  The Python parameter is an `int`; for negative xp
the loop body never runs and the result is 1, so `ℕ` input is exact on
the non-negative domain the claims quantify over. -/
def calculate_level (xp : ℕ) : ℕ :=
  levelGo xp 100 1

/-- One user's gamification state (`users.xp_total`, `users.level`). -/
structure UserState where
  xp_total : ℤ
  level : ℕ
deriving DecidableEq

/-- The crediting UPDATE run by `analyze_code` (lines 623-633):
`xp_total = xp_total + xp_earned` but `level = calculate_level(xp_earned)`
— the level is recomputed from the per-report delta, not from the new
cumulative total.  (`xp.toNat` is exact: for negative arguments Python's
loop never runs and both sides give level 1.) -/
def creditUser (u : UserState) (xp : ℤ) : UserState :=
  { xp_total := u.xp_total + xp, level := calculate_level xp.toNat }

/-!
Fan-out collection and report construction
(`src/backend/main.py`, `analyze_code`, lines 508-651).
-/

/-- Outcome of one backend `/analyze` call inside the fan-out.
`resp sc body` is an HTTP response with status `sc` whose body parsed as
`body`; `exn` covers a timeout, a transport failure, or a body that
`resp.json()` could not parse — everything the per-backend
`except Exception` swallows. -/
inductive BackendOutcome where
  | resp (statusCode : ℕ) (body : Json) : BackendOutcome
  | exn : BackendOutcome

/-- `resp.json() if resp.status_code == 200 else None`, with the
surrounding `except` turning any raised error into `None`
(lines 513-542). -/
def toResult : BackendOutcome → Option Json
  | .resp sc b => if sc = 200 then some b else none
  | .exn => none

/-- The `results` mapping built by the fan-out: one optional body per
backend kind. -/
structure FanResults where
  code_quality : Option Json
  architecture : Option Json
  event_loop : Option Json
  cost : Option Json

/-- The fan-out's per-backend try/except blocks, applied to the four
outcomes. -/
def collectResults (ocq oar oel oco : BackendOutcome) : FanResults :=
  { code_quality := toResult ocq, architecture := toResult oar,
    event_loop := toResult oel, cost := toResult oco }

/-- Python truthiness of a JSON value (`if results[kind]`). -/
def truthy : Json → Bool
  | .null => false
  | .bool b => b
  | .num q => q ≠ 0
  | .str s => s ≠ ""
  | .arr xs => !xs.isEmpty
  | .obj kvs => !kvs.isEmpty

/-- Truthiness of an optional response (`None` is falsy). -/
def truthyO : Option Json → Bool
  | some j => truthy j
  | none => false

/-- Key lookup in an object's members. -/
def lookupKey (kvs : List (String × Json)) (k : String) : Option Json :=
  (kvs.find? (fun p => p.1 == k)).map (fun p => p.2)

/-- The presence test and score read of lines 553-560:
`results[kind] and key in results[kind]`, then `results[kind][key]`.
Returns the numeric score when the response is a truthy dict carrying the
key with a numeric value.  (A non-numeric score value would raise in the
later float arithmetic — outside the claims' domain, which fixes numeric
scores.) -/
def getScoreKey (r : Option Json) (key : String) : Option ℚ :=
  match r with
  | some (.obj kvs) =>
    if truthy (.obj kvs) then
      match lookupKey kvs key with
      | some (.num q) => some q
      | _ => none
    else none
  | _ => none

/-- `dict.get(key, default)` restricted to numeric values, as used by the
badge conditions (lines 583-590). -/
def getNumD (r : Option Json) (key : String) (d : ℚ) : ℚ :=
  match r with
  | some (.obj kvs) =>
    match lookupKey kvs key with
    | some (.num q) => q
    | _ => d
  | _ => d

/-- Badge derivation (lines 582-592), in source order. -/
def badgesOf (r : FanResults) (overall : ℤ) : List String :=
  (if truthyO r.code_quality && decide (getNumD r.code_quality "score" 0 ≥ 90)
    then ["Clean Coder"] else []) ++
  (if truthyO r.architecture && decide (getNumD r.architecture "architecture_score" 0 ≥ 90)
    then ["Architect Master"] else []) ++
  (if truthyO r.event_loop && decide (getNumD r.event_loop "event_loop_score" 0 ≥ 90)
    then ["Async Ninja"] else []) ++
  (if truthyO r.cost && decide (getNumD r.cost "efficiency_score" 0 ≥ 90)
    then ["Optimizer"] else []) ++
  (if overall ≥ 95 then ["Code Legend"] else [])

/-- The response body of `POST /api/analyze` (the `AnalysisReport` model,
minus the request-time fields `report_id`/`analyzed_at`, which depend on
the wall clock and carry no claim content). -/
structure AnalysisReportOut where
  overall_score : ℤ
  status : String
  code_quality : Option Json
  architecture : Option Json
  event_loop : Option Json
  cost_analysis : Option Json
  xp_earned : ℤ
  badges_earned : List String
  level_up : Bool

/-- The pure tail of `analyze_code` (lines 544-651): score composition,
status tier, xp, badges and the response body, from the collected
results.  Total: it is defined for every combination of backend outcomes,
so no backend failure can abort the aggregate request. -/
def buildReport (r : FanResults) : AnalysisReportOut :=
  let overall := overallScoreCalc
    (getScoreKey r.code_quality "score")
    (getScoreKey r.architecture "architecture_score")
    (getScoreKey r.event_loop "event_loop_score")
    (getScoreKey r.cost "efficiency_score")
  { overall_score := overall
    status := statusOf overall
    code_quality := r.code_quality
    architecture := r.architecture
    event_loop := r.event_loop
    cost_analysis := r.cost
    xp_earned := overall * 10
    badges_earned := badgesOf r overall
    level_up := decide (overall ≥ 90) }

/-- Wall time of the fan-out as written (lines 511-542): each backend
call is awaited to completion before the next is issued, so the elapsed
time of the block is the sum of the four backend latencies. -/
def fanOutWallTime (tcq tar tel tco : ℕ) : ℕ :=
  tcq + tar + tel + tco

/-- Modelled from the spec: wall time of a concurrent fan-out, the
maximum of the individual backend latencies (spec section 4.3). -/
def fanOutWallTimeSpec (tcq tar tel tco : ℕ) : ℕ :=
  max tcq (max tar (max tel tco))

/-!
Persistence tail of `/api/analyze` (lines 596-651): the report INSERT and
the user-credit UPDATE run inside one `try` whose `except` only logs
(lines 634-635); the endpoint then returns the in-memory report
regardless.
-/

/-- Outcome of the `/api/analyze` persistence block and the response the
endpoint produces.  `response` is `Except` so that a propagated HTTP
error could be expressed; `reportStored` records whether the INSERT
committed; `user` is the user row afterwards. -/
structure AnalyzeOutcome where
  response : Except String AnalysisReportOut
  reportStored : Bool
  user : UserState

/-- The persistence tail of `analyze_code` (lines 596-651): the write is
attempted only when the pool exists and `project_id` is set; the user is
credited only when additionally `user_id` is set and both statements
succeed; any exception in the block is caught and logged, after which the
normal response is returned. -/
def analyzeFinish (rpt : AnalysisReportOut) (projectId userId : Option String)
    (dbAvailable insertOk updateOk : Bool) (u : UserState) : AnalyzeOutcome :=
  if dbAvailable && projectId.isSome then
    if insertOk then
      if userId.isSome then
        if updateOk then
          { response := .ok rpt, reportStored := true, user := creditUser u rpt.xp_earned }
        else
          -- UPDATE raised: caught at lines 634-635; the INSERT had
          -- already committed (no enclosing transaction)
          { response := .ok rpt, reportStored := true, user := u }
      else { response := .ok rpt, reportStored := true, user := u }
    else
      -- INSERT raised: caught and logged at lines 634-635
      { response := .ok rpt, reportStored := false, user := u }
  else { response := .ok rpt, reportStored := false, user := u }

/-!
The `POST /api/reports` upsert (`store_report`, lines 756-801).
-/

/-- One row of `analysis_reports`, restricted to the columns
`store_report` writes.  The same shape serves as the extracted submission
(the values bound to the INSERT's 13 parameters after the `report.get`
defaulting). -/
structure ReportRow where
  report_id : String
  overall_score : ℤ
  status : String
  code_quality_score : Option ℚ
  architecture_score : Option ℚ
  event_loop_score : Option ℚ
  efficiency_score : Option ℚ
  code_quality_report : Option Json
  architecture_report : Option Json
  event_loop_report : Option Json
  cost_report : Option Json
  xp_earned : ℤ
  badges_earned : List String

/-- The `ON CONFLICT (report_id) DO UPDATE SET` clause (lines 775-781):
only `overall_score`, `status` and the four sub-report documents are
overwritten; the per-kind score columns, `xp_earned` and `badges_earned`
keep the conflicting row's values. -/
def applyUpdate (row sub : ReportRow) : ReportRow :=
  { row with
    overall_score := sub.overall_score
    status := sub.status
    code_quality_report := sub.code_quality_report
    architecture_report := sub.architecture_report
    event_loop_report := sub.event_loop_report
    cost_report := sub.cost_report }

/-- `store_report`'s INSERT ... ON CONFLICT against a table modelled as a
row list with a unique index on `report_id`: insert when the key is
absent, else apply the DO UPDATE SET clause to the conflicting row. -/
def store_report (db : List ReportRow) (sub : ReportRow) : List ReportRow :=
  if db.any (fun row => row.report_id == sub.report_id) then
    db.map (fun row => if row.report_id == sub.report_id then applyUpdate row sub else row)
  else db ++ [sub]

/-!
The degraded-response branch of the code-quality agent
(`src/mcp-agents/code_quality_mcp/main.py`, `analyze_code`,
lines 170-203; `architect_mcp/main.py` lines 202-249 is the same shape).
-/

/-- One `CodeIssue` of the code-quality response. -/
structure CodeIssue where
  type : String
  severity : String
  line : Option ℤ
  message : String
  suggestion : Option String
deriving DecidableEq

/-- The `CodeQualityResponse` body (minus `analyzed_at`/`model_used`,
which depend on the wall clock and environment). -/
structure CodeQualityResponse where
  score : ℤ
  issues : List CodeIssue
  summary : String
deriving DecidableEq

/-- The fixed degraded response returned when parsing failed
(lines 175-185). -/
def degradedCodeQualityResponse : CodeQualityResponse :=
  { score := 50
    issues := [{ type := "analysis_error", severity := "medium", line := none,
                 message := "Could not fully analyze code - LLM response parsing failed",
                 suggestion := some "Try again or manually review the code" }]
    summary := "Analysis incomplete due to parsing error" }

/-- Key-presence test on an object (`"error" in parsed`). -/
def hasKey (kvs : List (String × Json)) (k : String) : Bool :=
  kvs.any (fun p => p.1 == k)

/-- `dict.get` returning a string, with the pydantic-side default used
when the key is absent.  (Non-string values would be rejected by pydantic
validation — outside the claims' domain.) -/
def getStrD (kvs : List (String × Json)) (k d : String) : String :=
  match lookupKey kvs k with
  | some (.str s) => s
  | _ => d

/-- One issue entry built from a parsed issue object (lines 189-196),
with the source's per-field defaults. -/
def issueFrom (j : Json) : CodeIssue :=
  match j with
  | .obj kvs =>
    { type := getStrD kvs "type" "unknown"
      severity := getStrD kvs "severity" "medium"
      line := match lookupKey kvs "line" with
              | some (.num q) => some (truncPy q)
              | _ => none
      message := getStrD kvs "message" "No description"
      suggestion := match lookupKey kvs "suggestion" with
                    | some (.str s) => some s
                    | _ => none }
  | _ => { type := "unknown", severity := "medium", line := none,
           message := "No description", suggestion := none }

/-- The post-parse step of the code-quality agent's `/analyze`
(lines 170-203), on the members of the parsed JSON object: when the
parsed dict carries both an `"error"` and a `"raw_response"` key —
whatever their values and whatever else is present — the fixed degraded
response is returned; otherwise the response is built from the parsed
content with clamping and defaults. -/
def handleParsedCodeQuality (kvs : List (String × Json)) : CodeQualityResponse :=
  if hasKey kvs "error" && hasKey kvs "raw_response" then
    degradedCodeQualityResponse
  else
    { score := min 100 (max 0 (truncPy (getNumD (some (.obj kvs)) "score" 50)))
      issues := match lookupKey kvs "issues" with
                | some (.arr xs) => xs.map issueFrom
                | _ => []
      summary := getStrD kvs "summary" "Analysis complete" }

/-!
Theorems.
-/

/-- Unfolding `levelGo` when the loop runs. -/
lemma levelGo_step (r t l : ℕ) (h : 0 < t ∧ t ≤ r) :
    levelGo r t l = levelGo (r - t) (t * 3 / 2) (l + 1) := by
  rw [levelGo]; simp [h]

/-- Unfolding `levelGo` when the loop stops. -/
lemma levelGo_stop (r t l : ℕ) (h : ¬(0 < t ∧ t ≤ r)) :
    levelGo r t l = l := by
  rw [levelGo]; simp [h]

/-- The loop never decreases the level accumulator. -/
lemma levelGo_ge (r : ℕ) : ∀ t l, l ≤ levelGo r t l := by
  induction r using Nat.strong_induction_on with
  | _ r ih =>
    intro t l
    by_cases h : 0 < t ∧ t ≤ r
    · rw [levelGo_step r t l h]
      exact le_trans (Nat.le_succ l) (ih (r - t) (by omega) (t * 3 / 2) (l + 1))
    · rw [levelGo_stop r t l h]

/-- The loop result is monotone in the remaining xp. -/
lemma levelGo_mono (r₂ : ℕ) : ∀ r₁ t l, r₁ ≤ r₂ →
    levelGo r₁ t l ≤ levelGo r₂ t l := by
  induction r₂ using Nat.strong_induction_on with
  | _ r₂ ih =>
    intro r₁ t l hle
    by_cases h2 : 0 < t ∧ t ≤ r₂
    · by_cases h1 : 0 < t ∧ t ≤ r₁
      · rw [levelGo_step r₁ t l h1, levelGo_step r₂ t l h2]
        exact ih (r₂ - t) (by omega) (r₁ - t) (t * 3 / 2) (l + 1) (by omega)
      · rw [levelGo_stop r₁ t l h1, levelGo_step r₂ t l h2]
        exact le_trans (Nat.le_succ l) (levelGo_ge (r₂ - t) (t * 3 / 2) (l + 1))
    · have h1 : ¬(0 < t ∧ t ≤ r₁) := by omega
      rw [levelGo_stop r₁ t l h1, levelGo_stop r₂ t l h2]

lemma calculate_level_0 : calculate_level 0 = 1 := by
  rw [calculate_level, levelGo_stop]; omega

lemma calculate_level_100 : calculate_level 100 = 2 := by
  rw [calculate_level, levelGo_step 100 100 1 (by omega)]
  norm_num
  rw [levelGo_stop]; omega

lemma calculate_level_150 : calculate_level 150 = 2 := by
  rw [calculate_level, levelGo_step 150 100 1 (by omega)]
  norm_num
  rw [levelGo_stop]; omega

lemma calculate_level_250 : calculate_level 250 = 3 := by
  rw [calculate_level, levelGo_step 250 100 1 (by omega)]
  norm_num
  rw [levelGo_step 150 150 2 (by omega)]
  norm_num
  rw [levelGo_stop]; omega

/-- C9: the leveling function `calculate_level` matches the reference
description — start at level 1 with threshold 100; while the remaining xp
is at least the threshold, subtract it, increment the level, and set the
threshold to `floor(threshold * 1.5)` (which `levelGo` implements
verbatim) — and satisfies `calculate_level 0 = 1`,
`calculate_level 100 = 2`, `calculate_level 250 = 3`, and monotonicity
over all non-negative xp. -/
theorem C9_leveling :
    calculate_level 0 = 1 ∧ calculate_level 100 = 2 ∧ calculate_level 250 = 3 ∧
    ∀ x y : ℕ, x ≤ y → calculate_level x ≤ calculate_level y := by
  refine ⟨calculate_level_0, calculate_level_100, calculate_level_250, ?_⟩
  intro x y hxy
  exact levelGo_mono y x 100 1 hxy

/-- Witness for C9: the monotonicity conjunct applied at 100 ≤ 250. -/
theorem C9_leveling_witness : calculate_level 100 ≤ calculate_level 250 :=
  C9_leveling.2.2.2 100 250 (by omega)

/-- C1: the claim (level recomputed from the new cumulative total) is the
spec's stated intent, but the code computes `calculate_level(xp_earned)`
from the per-report delta.  At a user with `xp_total = 150` (level 2,
consistent) credited with `xp_earned = 100`, the code stores
`xp_total = 250` but `level = calculate_level 100 = 2`, while the
invariant `level = calculate_level(xp_total)` demands
`calculate_level 250 = 3`. -/
theorem C1_level_credited_from_delta :
    calculate_level 150 = 2 ∧
    creditUser { xp_total := 150, level := 2 } 100 =
      { xp_total := 250, level := 2 } ∧
    calculate_level 250 = 3 ∧
    (creditUser { xp_total := 150, level := 2 } 100).level ≠
      calculate_level (creditUser { xp_total := 150, level := 2 } 100).xp_total.toNat := by
  have h100 := calculate_level_100
  have h250 := calculate_level_250
  refine ⟨calculate_level_150, ?_, h250, ?_⟩
  · simp only [creditUser]
    norm_num
    exact h100
  · simp only [creditUser]
    norm_num
    rw [show Int.toNat 100 = 100 from rfl, show Int.toNat 250 = 250 from rfl]
    omega

/-- C2 counterexample: with only code_quality (score 1) and architecture
(score 0) present, the weighted average is (1·0.3)/(0.3+0.25) = 6/11 ≈
0.545; the code's `int()` truncation yields 0 while the claim's `round`
yields 1, so `overall_score` is not the rounded weighted average. -/
theorem C2_counterexample :
    overallScoreCalc (some 1) (some 0) none none = 0 ∧
    overallScoreSpecRound (some 1) (some 0) none none = 1 := by
  constructor
  · simp only [overallScoreCalc, scoreEntries, truncPy]
    norm_num [Int.floor_eq_iff]
  · simp only [overallScoreSpecRound]
    norm_num [round_eq, Int.floor_eq_iff]

/-- C2 amended: for every combination of present sub-scores,
`overall_score` equals the weight-renormalized weighted average with the
final `round` replaced by Python's `int()` truncation (floor on these
non-negative inputs), and equals 0 when no sub-report is present. -/
theorem C2_trunc_weighted_average :
    ∀ cq ar el co : Option ℚ,
      overallScoreCalc cq ar el co = overallScoreSpecTrunc cq ar el co := by
  intro cq ar el co
  rcases cq with _ | s1 <;> rcases ar with _ | s2 <;>
    rcases el with _ | s3 <;> rcases co with _ | s4 <;>
    simp only [overallScoreCalc, overallScoreSpecTrunc, scoreEntries, List.append_nil,
      List.nil_append, List.cons_append, List.isEmpty_nil, List.isEmpty_cons, List.map_cons,
      List.map_nil, List.sum_cons, List.sum_nil, Option.map_some, Option.map_none,
      Option.getD_some, Option.getD_none, Option.isSome_some, Option.isSome_none,
      Option.isNone_some, Option.isNone_none, if_true, if_false] <;>
    norm_num <;> ring_nf

/-- First submission used in the C3 counterexample. -/
def c3sub1 : ReportRow :=
  { report_id := "RPT-20260101120000", overall_score := 50,
    status := "needs_improvement",
    code_quality_score := some 50, architecture_score := some 50,
    event_loop_score := some 50, efficiency_score := some 50,
    code_quality_report := some (.obj [("score", .num 50)]),
    architecture_report := none, event_loop_report := none, cost_report := none,
    xp_earned := 500, badges_earned := ["Clean Coder"] }

/-- Second submission used in the C3 counterexample: same `report_id`,
different values in every overwritable and non-overwritable field. -/
def c3sub2 : ReportRow :=
  { report_id := "RPT-20260101120000", overall_score := 70,
    status := "good",
    code_quality_score := some 70, architecture_score := some 70,
    event_loop_score := some 70, efficiency_score := some 70,
    code_quality_report := some (.obj [("score", .num 70)]),
    architecture_report := some (.obj []), event_loop_report := none, cost_report := none,
    xp_earned := 700, badges_earned := ["Optimizer"] }

/-- C3 counterexample: submitting `c3sub1` then `c3sub2` (same
`report_id`) leaves exactly one row, but that row keeps the FIRST
submission's per-kind scores, `xp_earned` and `badges_earned` — the DO
UPDATE SET clause only overwrites `overall_score`, `status` and the four
sub-report documents — so the stored badge and score fields do not equal
the second submission's values. -/
theorem C3_counterexample :
    store_report (store_report [] c3sub1) c3sub2 =
      [{ report_id := "RPT-20260101120000", overall_score := 70,
         status := "good",
         code_quality_score := some 50, architecture_score := some 50,
         event_loop_score := some 50, efficiency_score := some 50,
         code_quality_report := some (.obj [("score", .num 70)]),
         architecture_report := some (.obj []), event_loop_report := none,
         cost_report := none,
         xp_earned := 500, badges_earned := ["Clean Coder"] }] ∧
    (["Clean Coder"] : List String) ≠ ["Optimizer"] ∧ (500 : ℤ) ≠ 700 := by
  refine ⟨rfl, by decide, by decide⟩

/-- C3 amended: submitting two reports with the same `report_id` into a
store not yet containing that id leaves exactly one row for it; that row
carries the second submission's `overall_score`, `status` and sub-report
documents, and the first submission's per-kind score columns, `xp_earned`
and `badges_earned`. -/
theorem C3_upsert_single_row (db : List ReportRow) (s1 s2 : ReportRow)
    (hid : s2.report_id = s1.report_id)
    (hfresh : db.countP (fun r => r.report_id == s1.report_id) = 0) :
    (store_report (store_report db s1) s2).countP
        (fun r => r.report_id == s1.report_id) = 1 ∧
    ∃ r, r ∈ store_report (store_report db s1) s2 ∧ r.report_id = s1.report_id ∧
      r.overall_score = s2.overall_score ∧ r.status = s2.status ∧
      r.code_quality_report = s2.code_quality_report ∧
      r.architecture_report = s2.architecture_report ∧
      r.event_loop_report = s2.event_loop_report ∧
      r.cost_report = s2.cost_report ∧
      r.code_quality_score = s1.code_quality_score ∧
      r.architecture_score = s1.architecture_score ∧
      r.event_loop_score = s1.event_loop_score ∧
      r.efficiency_score = s1.efficiency_score ∧
      r.xp_earned = s1.xp_earned ∧ r.badges_earned = s1.badges_earned := by
  have hnone : ∀ r ∈ db, (r.report_id == s1.report_id) = false := by
    intro r hr
    have := List.countP_eq_zero.mp hfresh r hr
    simpa using this
  have hany1 : db.any (fun r => r.report_id == s1.report_id) = false := by
    rw [List.any_eq_false]
    intro r hr
    simp [hnone r hr]
  have h1 : store_report db s1 = db ++ [s1] := by
    rw [store_report, hany1]; rfl
  have hany2 : (db ++ [s1]).any (fun r => r.report_id == s2.report_id) = true := by
    rw [List.any_eq_true]
    exact ⟨s1, by simp, by simp [hid]⟩
  have hmapdb : db.map (fun row => if row.report_id == s2.report_id
      then applyUpdate row s2 else row) = db := by
    conv_rhs => rw [← List.map_id db]
    apply List.map_congr_left
    intro r hr
    have : (r.report_id == s2.report_id) = false := by
      rw [hid]; exact hnone r hr
    simp [this]
  have h2 : store_report (store_report db s1) s2 = db ++ [applyUpdate s1 s2] := by
    rw [h1, store_report, hany2]
    simp only [if_true, List.map_append, hmapdb, List.map_cons, List.map_nil]
    rw [if_pos (by simp [hid])]
  rw [h2]
  constructor
  · rw [List.countP_append, hfresh]
    simp [List.countP_cons, applyUpdate]
  · refine ⟨applyUpdate s1 s2, by simp, ?_⟩
    simp [applyUpdate]

/-- Witness for C3: the amended upsert theorem applied to the concrete
submissions of the counterexample over the empty store. -/
theorem C3_upsert_single_row_witness :
    (store_report (store_report [] c3sub1) c3sub2).countP
        (fun r => r.report_id == c3sub1.report_id) = 1 ∧
    ∃ r, r ∈ store_report (store_report [] c3sub1) c3sub2 ∧
      r.report_id = c3sub1.report_id ∧
      r.overall_score = c3sub2.overall_score ∧ r.status = c3sub2.status ∧
      r.code_quality_report = c3sub2.code_quality_report ∧
      r.architecture_report = c3sub2.architecture_report ∧
      r.event_loop_report = c3sub2.event_loop_report ∧
      r.cost_report = c3sub2.cost_report ∧
      r.code_quality_score = c3sub1.code_quality_score ∧
      r.architecture_score = c3sub1.architecture_score ∧
      r.event_loop_score = c3sub1.event_loop_score ∧
      r.efficiency_score = c3sub1.efficiency_score ∧
      r.xp_earned = c3sub1.xp_earned ∧ r.badges_earned = c3sub1.badges_earned :=
  C3_upsert_single_row [] c3sub1 c3sub2 rfl rfl

/-- If some candidate parses, the candidate loop returns a parsed value
(the first such). -/
lemma tryCands_some_of_ex :
    ∀ l : List (List Char),
      (∃ c ∈ l, (json_loads_chars (pyStripChars c)).isSome) →
      ∃ v, tryCands l = some v := by
  intro l
  induction l with
  | nil => rintro ⟨c, hc, _⟩; cases hc
  | cons c cs ih =>
    rintro ⟨d, hd, hsome⟩
    cases h : json_loads_chars (pyStripChars c) with
    | some v => exact ⟨v, by simp [tryCands, h]⟩
    | none =>
      have : tryCands (c :: cs) = tryCands cs := by simp [tryCands, h]
      rw [this]
      rcases List.mem_cons.mp hd with rfl | hmem
      · rw [h] at hsome; cases hsome
      · exact ih ⟨d, hmem, hsome⟩

/-- C4 counterexample: the input consisting of a valid JSON object
followed by `x` and a stray closing brace contains a valid JSON document
as a brace-delimited span (its 7-character prefix parses), yet every
strategy fails — the greedy brace-span pattern captures up to the LAST
closing brace, which does not parse — and the function returns the
parse-failure sentinel instead of a successfully parsed value. -/
theorem C4_counterexample :
    ("\x7b\"a\":1\x7d".data.isPrefixOf "\x7b\"a\":1\x7d x\x7d".data) = true ∧
    json_loads "\x7b\"a\":1\x7d" = some (Json.obj [("a", Json.num 1)]) ∧
    tryCands (jsonCandidates "\x7b\"a\":1\x7d x\x7d") = none ∧
    extract_json_from_response "\x7b\"a\":1\x7d x\x7d" =
      Json.obj [("error", Json.str "Failed to parse LLM response"),
                ("raw_response", Json.str "\x7b\"a\":1\x7d x\x7d")] :=
  ⟨rfl, rfl, rfl, rfl⟩

/-- C4 amended: the five strategies are tried in the stated order and the
first successfully parsed candidate is returned — in particular the
stated example input yields the object `{a: 1}` — but recovery is only
guaranteed when one of the five extracted candidate strings itself
parses; an input can contain a valid JSON document (e.g. a brace span)
while no candidate parses, in which case the sentinel is returned. -/
theorem C4_first_parsed_candidate_wins :
    (∀ s : String,
      (∃ c ∈ jsonCandidates s, (json_loads_chars (pyStripChars c)).isSome) →
      ∃ v, tryCands (jsonCandidates s) = some v ∧
        extract_json_from_response s = v) ∧
    extract_json_from_response "\x7b\"a\":1\x7d extra \x7bbroken" =
      Json.obj [("a", Json.num 1)] := by
  constructor
  · intro s hex
    obtain ⟨v, hv⟩ := tryCands_some_of_ex (jsonCandidates s) hex
    exact ⟨v, hv, by simp [extract_json_from_response, hv]⟩
  · rfl

/-- Witness for C4: the amended theorem applied at the example input,
with the brace-span candidate as the parsing witness. -/
theorem C4_first_parsed_candidate_wins_witness :
    ∃ v, tryCands (jsonCandidates "\x7b\"a\":1\x7d extra \x7bbroken") = some v ∧
      extract_json_from_response "\x7b\"a\":1\x7d extra \x7bbroken" = v :=
  C4_first_parsed_candidate_wins.1 "\x7b\"a\":1\x7d extra \x7bbroken"
    ⟨"\x7b\"a\":1\x7d".data, by decide, by decide⟩

/-- C5 counterexample: on an input with no JSON the function does return
the sentinel with the original text, but the sentinel's `error` field is
the string "Failed to parse LLM response", not "parse_failed" as the
claim states. -/
theorem C5_counterexample :
    extract_json_from_response "no json here" =
      Json.obj [("error", Json.str "Failed to parse LLM response"),
                ("raw_response", Json.str "no json here")] ∧
    "Failed to parse LLM response" ≠ "parse_failed" :=
  ⟨rfl, by decide⟩

/-- C5 amended: `extract_json_from_response` is total (never throws) and
for every input either returns the first successfully parsed candidate or
the sentinel object whose `error` field is the fixed string
"Failed to parse LLM response" and whose `raw_response` field is the
input truncated to at most 500 characters. -/
theorem C5_sentinel_on_failure :
    ∀ s : String,
      ((∃ v, tryCands (jsonCandidates s) = some v ∧
          extract_json_from_response s = v) ∨
        (tryCands (jsonCandidates s) = none ∧
          extract_json_from_response s = sentinelObj s)) ∧
      sentinelObj s =
        Json.obj [("error", Json.str "Failed to parse LLM response"),
                  ("raw_response", Json.str (String.mk (s.data.take 500)))] ∧
      (s.data.take 500).length ≤ 500 := by
  intro s
  refine ⟨?_, rfl, by simp [List.length_take]⟩
  cases h : tryCands (jsonCandidates s) with
  | some v => exact Or.inl ⟨v, rfl, by simp [extract_json_from_response, h]⟩
  | none => exact Or.inr ⟨rfl, by simp [extract_json_from_response, h]⟩

/-- C6: the source's own comment says "Call MCPs in parallel", but each
of the four backend requests is awaited to completion before the next is
issued, so the wall time of the fan-out block is the SUM of the backend
latencies, not their maximum: with four backends at 30s each the block
takes 120s where a concurrent fan-out would take 30s. -/
theorem C6_sequential_fanout :
    fanOutWallTime 30 30 30 30 = 120 ∧
    fanOutWallTimeSpec 30 30 30 30 = 30 ∧
    fanOutWallTime 30 30 30 30 ≠ fanOutWallTimeSpec 30 30 30 30 := by
  refine ⟨rfl, rfl, by decide⟩

/-- C7: failure isolation of the fan-out.  The report is built for every
combination of backend outcomes (the function is total, so a backend
failure never aborts the request); each kind's sub-report in the response
is exactly that backend's own `toResult` — independent of the other
three — and `toResult` maps every failure (timeout, transport error,
non-200 status) to the absent marker `none` while a 200 response
contributes exactly its returned body. -/
theorem C7_fanout_isolation :
    ∀ ocq oar oel oco : BackendOutcome,
      (buildReport (collectResults ocq oar oel oco)).code_quality = toResult ocq ∧
      (buildReport (collectResults ocq oar oel oco)).architecture = toResult oar ∧
      (buildReport (collectResults ocq oar oel oco)).event_loop = toResult oel ∧
      (buildReport (collectResults ocq oar oel oco)).cost_analysis = toResult oco ∧
      (∀ o : BackendOutcome, (∀ b, o ≠ .resp 200 b) → toResult o = none) ∧
      (∀ b : Json, toResult (.resp 200 b) = some b) := by
  intro ocq oar oel oco
  refine ⟨rfl, rfl, rfl, rfl, ?_, fun b => rfl⟩
  intro o hfail
  cases o with
  | exn => rfl
  | resp sc b =>
    by_cases hsc : sc = 200
    · subst hsc; exact absurd rfl (hfail b)
    · simp [toResult, hsc]

/-- Witness for C7: one backend raising while the other three return 200
leaves the failed kind absent and the other three sub-reports exactly as
returned. -/
theorem C7_fanout_isolation_witness :
    (buildReport (collectResults .exn
        (.resp 200 (Json.obj [("architecture_score", Json.num 80)]))
        (.resp 200 (Json.obj [("event_loop_score", Json.num 75)]))
        (.resp 200 (Json.obj [("efficiency_score", Json.num 60)])))).code_quality
      = none ∧
    (buildReport (collectResults .exn
        (.resp 200 (Json.obj [("architecture_score", Json.num 80)]))
        (.resp 200 (Json.obj [("event_loop_score", Json.num 75)]))
        (.resp 200 (Json.obj [("efficiency_score", Json.num 60)])))).architecture
      = some (Json.obj [("architecture_score", Json.num 80)]) := by
  have h := C7_fanout_isolation .exn
    (.resp 200 (Json.obj [("architecture_score", Json.num 80)]))
    (.resp 200 (Json.obj [("event_loop_score", Json.num 75)]))
    (.resp 200 (Json.obj [("efficiency_score", Json.num 60)]))
  exact ⟨h.1.trans (h.2.2.2.2.1 .exn (fun b hb => by cases hb)),
         h.2.1.trans (h.2.2.2.2.2 (Json.obj [("architecture_score", Json.num 80)]))⟩

/-- C8 counterexample: with `project_id` set (durable storage of a fresh
analysis explicitly requested) and the INSERT failing, the endpoint still
returns the ordinary success response — the exception is caught and only
logged (src/backend/main.py lines 634-635) — instead of propagating a
hard failure; the report is simply not stored. -/
theorem C8_counterexample :
    analyzeFinish (buildReport ⟨none, none, none, none⟩) (some "proj-1") none
        true false false { xp_total := 0, level := 1 } =
      { response := .ok (buildReport ⟨none, none, none, none⟩),
        reportStored := false,
        user := { xp_total := 0, level := 1 } } :=
  rfl

/-- C8 amended: a persistence failure during `/api/analyze` is swallowed:
for every combination of request fields, database availability and
write/update outcomes, the endpoint responds with the ordinary success
report, never with a propagated error. -/
theorem C8_persistence_failure_swallowed :
    ∀ (rpt : AnalysisReportOut) (projectId userId : Option String)
      (dbAvailable insertOk updateOk : Bool) (u : UserState),
      (analyzeFinish rpt projectId userId dbAvailable insertOk updateOk u).response
        = .ok rpt := by
  intro rpt projectId userId dbAvailable insertOk updateOk u
  unfold analyzeFinish
  split <;> (try split) <;> (try split) <;> (try split) <;> rfl

/-- C10: the degraded-branch test of the code-quality agent depends only
on the PRESENCE of the `"error"` and `"raw_response"` keys in the parsed
object: whenever both keys are present — whatever their values and
whatever other keys exist — the fixed degraded response (score 50, a
single `analysis_error` issue of severity medium, summary "Analysis
incomplete due to parsing error") replaces the parsed content. -/
theorem C10_degraded_on_error_keys :
    ∀ kvs : List (String × Json),
      hasKey kvs "error" = true → hasKey kvs "raw_response" = true →
      handleParsedCodeQuality kvs = degradedCodeQualityResponse := by
  intro kvs h1 h2
  simp [handleParsedCodeQuality, h1, h2]

/-- Witness for C10: a legitimately parsed analysis object (score 95, a
summary) that happens to also carry `error` and `raw_response` keys is
replaced by the degraded response. -/
theorem C10_degraded_on_error_keys_witness :
    handleParsedCodeQuality
        [("score", Json.num 95), ("summary", Json.str "well structured"),
         ("error", Json.null), ("raw_response", Json.str "")] =
      degradedCodeQualityResponse :=
  C10_degraded_on_error_keys
    [("score", Json.num 95), ("summary", Json.str "well structured"),
     ("error", Json.null), ("raw_response", Json.str "")]
    (by decide) (by decide)
